import Mathlib

/-!
Verification of the asynchronous job orchestration subsystem of the
Lora-Style-Transfer application.

The embedding below translates, definition by definition, the relevant
TypeScript source files:

* `app/api/_processing/state.ts` — the in-memory Job Record Store
  (`getProcessingState`, `JobRecord`, `FrontendResult`);
* `app/api/process/route.ts` — the `POST /process` handler: validation,
  record creation, artifact persistence, worker spawn, and the `close`
  handler that writes the completion record and resolves the response;
* `app/api/status/[jobId]/route.ts` — the `GET /status/[jobId]` handler;
* `app/page.tsx` — the client poller (`handleStartProcessing`,
  `pollStatus`) and the result display path (`convertedResults`).

Timestamps (`Date.now()`), random seeds (`Math.random()`), and the worker
process outcome are modelled as explicit parameters; JSON-parsed optional
fields are modelled with `Option`; JS falsiness of strings ("" is falsy)
is preserved where the source relies on it.  Fractional parameter values
are modelled with `Rat` (no float arithmetic occurs in the source paths
modelled here; the numbers are only stored and compared).
-/

/-- Generation parameters as stored on a result
(`parameters` object in `FrontendResult`, `state.ts` lines 8-13). -/
structure GenParams where
  strength : Rat
  cfgScale : Rat
  steps : Nat
  sampler : String
deriving Repr, DecidableEq

/-- A parsed `parameters` JSON bundle from the request form data; every
field is optional, mirroring the `??`-defaulting reads in
`process/route.ts` lines 80-83. -/
structure ParamBundle where
  strength : Option Rat := none
  cfgScale : Option Rat := none
  steps : Option Nat := none
  sampler : Option String := none
deriving Repr, DecidableEq

/-- `(parameters ? JSON.parse(parameters) : {})` — an absent bundle reads
as the empty object. -/
def parsedBundle (p : Option ParamBundle) : ParamBundle :=
  p.getD {}

/-- Default strength `0.7` (`process/route.ts` line 80). -/
def defaultStrength : Rat := 7/10

/-- Default cfgScale `7.5` (`process/route.ts` line 81). -/
def defaultCfgScale : Rat := 15/2

/-- Default steps `20` (`process/route.ts` line 82). -/
def defaultSteps : Nat := 20

/-- Default sampler `"Euler a"` (`process/route.ts` line 83). -/
def defaultSampler : String := "Euler a"

/-- The effective parameters attached to every result built by the
`close` handler: each field falls back to its documented default when the
request bundle omits it (`process/route.ts` lines 79-84, repeated at
102-107 and 127-132). -/
def effectiveParams (p : Option ParamBundle) : GenParams :=
  let b := parsedBundle p
  { strength := b.strength.getD defaultStrength
    cfgScale := b.cfgScale.getD defaultCfgScale
    steps := b.steps.getD defaultSteps
    sampler := b.sampler.getD defaultSampler }

/-- `FrontendResult` (`state.ts` lines 4-16); `isFavorite` is never set on
the processing path and is omitted. -/
structure FrontendResult where
  id : String
  imageUrl : String
  seed : Nat
  parameters : GenParams
  createdAt : Nat
deriving Repr, DecidableEq

/-- Job status union (`state.ts` line 20). -/
inductive JobStatus where
  | pending
  | processing
  | completed
  | failed
deriving Repr, DecidableEq

/-- The wire string of a status value. -/
def JobStatus.toWire : JobStatus → String
  | .pending => "pending"
  | .processing => "processing"
  | .completed => "completed"
  | .failed => "failed"

/-- `JobRecord` (`state.ts` lines 18-26). -/
structure JobRecord where
  jobId : String
  status : JobStatus
  progress : Nat
  currentStep : Option String := none
  errorMessage : Option String := none
  results : Option (List FrontendResult) := none
  createdAt : Nat
deriving Repr, DecidableEq

/-- The job store: the `jobs : Map<string, JobRecord>` of
`getProcessingState`, modelled as an association list where `set`
prepends, so `get` sees the newest binding first. -/
def Store : Type := List (String × JobRecord)

/-- `store.jobs.set(jobId, rec)`. -/
def storeSet (s : Store) (k : String) (r : JobRecord) : Store :=
  (k, r) :: s

/-- `store.jobs.get(jobId)` — first (newest) binding wins, matching
`Map.set` overwrite semantics. -/
def storeGet (s : Store) (k : String) : Option JobRecord :=
  (List.find? (fun p => p.1 == k) s).map (fun p => p.2)

/-- The empty store (fresh `getProcessingState`). -/
def emptyStore : Store := []

/-- The standard base64 alphabet. -/
def base64Alphabet : List Char :=
  "ABCDEFGHIJKLMNOPQRSTUVWXYZabcdefghijklmnopqrstuvwxyz0123456789+/".toList

/-- The base64 digit for a 6-bit value. -/
def b64Char (n : Nat) : Char :=
  base64Alphabet.getD n 'A'

/-- base64 of a byte list, three bytes at a time with `=` padding —
`Buffer.from(imageBuffer).toString('base64')`. -/
def base64Chunks : List Nat → List Char
  | a :: b :: c :: rest =>
      b64Char (a / 4) :: b64Char (a % 4 * 16 + b / 16) ::
        b64Char (b % 16 * 4 + c / 64) :: b64Char (c % 64) :: base64Chunks rest
  | [a, b] =>
      [b64Char (a / 4), b64Char (a % 4 * 16 + b / 16), b64Char (b % 16 * 4), '=']
  | [a] =>
      [b64Char (a / 4), b64Char (a % 4 * 16), '=', '=']
  | [] => []

/-- base64 of a byte list as a string. -/
def base64Encode (bs : List Nat) : String :=
  String.mk (base64Chunks bs)

/-- The degraded image reference: the original input bytes re-encoded as
a self-contained data URI
(`` `data:image/jpeg;base64,${Buffer.from(imageBuffer).toString('base64')}` ``). -/
def dataUri (bs : List Nat) : String :=
  "data:image/jpeg;base64," ++ base64Encode bs

/-- A parsed worker stdout payload (`JSON.parse(output)` with fields
`id` and `image_url`, `process/route.ts` lines 73-77). -/
structure WorkerPayload where
  id : Option String := none
  image_url : String
deriving Repr, DecidableEq

/-- The multipart form of a `POST /process` request: `image`, `model_id`,
`parameters` (already-parsed bundle; `none` when the field is absent). -/
structure SubmitRequest where
  image : Option (List Nat) := none
  modelId : Option String := none
  parameters : Option ParamBundle := none
deriving Repr, DecidableEq

/-- `if (!image || !modelId)` — JS falsiness: a missing file, a missing
model id, or an empty-string model id (`process/route.ts` line 16). -/
def missingFields (req : SubmitRequest) : Bool :=
  req.image.isNone ||
    (match req.modelId with
     | none => true
     | some s => s == "")

/-- Responses the `POST /process` handler can produce. -/
inductive PostResponse where
  | ok (job_id : String) (status : String)
  | badRequest (error : String)
  | serverError (error : String) (details : String)
deriving Repr, DecidableEq

/-- HTTP status code of a `POST /process` response
(`NextResponse.json` defaults to 200; 400 and 500 are explicit). -/
def PostResponse.httpCode : PostResponse → Nat
  | .ok _ _ => 200
  | .badRequest _ => 400
  | .serverError _ _ => 500

/-- The observable events of one `POST /process` invocation, in the order
the Node event loop produces them. -/
inductive PostEvent where
  | createRecord (jobId : String) (rec : JobRecord)
  | persistArtifact (path : String)
  | spawnWorker (script : String)
  | workerClose (code : Int)
  | updateRecord (jobId : String) (rec : JobRecord)
  | respond (resp : PostResponse)
deriving Repr, DecidableEq

/-- The record written at job creation (`process/route.ts` lines 34-40):
`status: 'processing'`, `progress: 5`, the initial step label, creation
timestamp; no results, no error message. -/
def initialJobRecord (jobId : String) (tCreate : Nat) : JobRecord :=
  { jobId := jobId
    status := .processing
    progress := 5
    currentStep := some "Starting Python worker..."
    errorMessage := none
    results := none
    createdAt := tCreate }

/-- The single result built inside the `close` handler: on exit code 0
with parsable stdout, the worker's values (`process/route.ts` lines
75-86); on parse failure (lines 98-109) or non-zero exit (lines 123-134),
the degraded result whose image is the input re-encoded as a data URI.
All three branches share the defaulted parameters and the supplied
seed/timestamp. -/
def completionResult (jobId : String) (imageBytes : List Nat)
    (params : Option ParamBundle) (code : Int)
    (parsed : Option WorkerPayload) (seed tComplete : Nat) : FrontendResult :=
  let eff := effectiveParams params
  if code = 0 then
    match parsed with
    | some payload =>
        { id := payload.id.getD jobId
          imageUrl := payload.image_url
          seed := seed
          parameters := eff
          createdAt := tComplete }
    | none =>
        { id := jobId
          imageUrl := dataUri imageBytes
          seed := seed
          parameters := eff
          createdAt := tComplete }
  else
    { id := jobId
      imageUrl := dataUri imageBytes
      seed := seed
      parameters := eff
      createdAt := tComplete }

/-- The record written by the `close` handler (`process/route.ts` lines
88-95, 111-118, 136-143): a fresh record with `status: 'completed'`,
`progress: 100`, a one-element results list, and — notably — a fresh
`createdAt: Date.now()` taken at completion time. -/
def completionRecord (jobId : String) (imageBytes : List Nat)
    (params : Option ParamBundle) (code : Int)
    (parsed : Option WorkerPayload) (seed tComplete : Nat) : JobRecord :=
  { jobId := jobId
    status := .completed
    progress := 100
    currentStep :=
      some (if code = 0 then "Processing complete" else "Processing complete (fallback)")
    errorMessage := none
    results := some [completionResult jobId imageBytes params code parsed seed tComplete]
    createdAt := tComplete }

/-- The full `POST /process` handler (`process/route.ts` lines 7-156) for
one request, as a function of the sources of nondeterminism: the
generated job id, the creation and completion clock readings, the random
seed, and the worker's exit code and parsed stdout.  Returns the final
store, the ordered event trace, and the HTTP response.  The response is
produced by `resolve(...)` inside the worker's `close` listener, hence it
appears after `workerClose` in the trace. -/
def postProcess (store : Store) (req : SubmitRequest) (jobId : String)
    (tCreate : Nat) (code : Int) (parsed : Option WorkerPayload)
    (seed tComplete : Nat) : Store × List PostEvent × PostResponse :=
  if missingFields req then
    let resp := PostResponse.badRequest "Missing required fields: image, model_id"
    (store, [.respond resp], resp)
  else
    let imageBytes := req.image.getD []
    let rec0 := initialJobRecord jobId tCreate
    let store1 := storeSet store jobId rec0
    let artifactPath := "/tmp/processing/" ++ jobId ++ "_input.jpg"
    let rec1 := completionRecord jobId imageBytes req.parameters code parsed seed tComplete
    let store2 := storeSet store1 jobId rec1
    let resp := PostResponse.ok jobId "pending"
    (store2,
     [.createRecord jobId rec0,
      .persistArtifact artifactPath,
      .spawnWorker "backend/process_image.py",
      .workerClose code,
      .updateRecord jobId rec1,
      .respond resp],
     resp)

/-- The job records a `POST /process` invocation writes to the store, in
write order. -/
def writtenRecords (events : List PostEvent) : List JobRecord :=
  events.filterMap (fun e =>
    match e with
    | .createRecord _ r => some r
    | .updateRecord _ r => some r
    | _ => none)

/-- Whether a `respond` event strictly precedes the `workerClose` event
in a trace (the claim that the response is sent before the worker
finishes). -/
def respondBeforeClose : List PostEvent → Bool
  | [] => false
  | .respond _ :: rest => rest.any (fun e => match e with | .workerClose _ => true | _ => false)
  | .workerClose _ :: _ => false
  | _ :: rest => respondBeforeClose rest

/-- The client-facing status view returned by `GET /status/[jobId]`
(second document of `status/[jobId]/route.ts`).  `none` stands for an
absent or `null` JSON field. -/
structure StatusViewOut where
  job_id : String
  status : String
  progress : Nat
  current_step : Option String := none
  results : Option (List FrontendResult) := none
  error_message : Option String := none
  completed_at : Option Nat := none
deriving Repr, DecidableEq

/-- `job.currentStep || null` / `job.errorMessage || null` — an empty
string is falsy and collapses to `null`. -/
def jsStringOrNull (s : Option String) : Option String :=
  match s with
  | none => none
  | some v => if v == "" then none else some v

/-- The `GET /status/[jobId]` handler (`status/[jobId]/route.ts` lines
42-81 of the combined file): an unknown id yields a synthetic `failed`
view with progress 0 and the "Job not found" step, still HTTP 200; a
known id is translated field by field, with `completed_at` populated
(from the current clock) only for completed jobs.  Returns (HTTP status,
body). -/
def statusGET (store : Store) (jobId : String) (tNow : Nat) :
    Nat × StatusViewOut :=
  match storeGet store jobId with
  | none =>
      (200,
       { job_id := jobId
         status := "failed"
         progress := 0
         current_step := some "Job not found" })
  | some job =>
      (200,
       { job_id := job.jobId
         status := job.status.toWire
         progress := job.progress
         current_step := jsStringOrNull job.currentStep
         results := some (job.results.getD [])
         error_message := jsStringOrNull job.errorMessage
         completed_at := if job.status = .completed then some tNow else none })

/-- The body of a status response as the client poller reads it
(`page.tsx` lines 205-214): `status`, `current_step`, `progress`,
`results`, `error_message`.  Optional fields model absent/zero values
under JS falsiness. -/
structure StatusResp where
  status : String
  current_step : Option String := none
  progress : Option Nat := none
  results : List FrontendResult := []
  error_message : Option String := none
deriving Repr, DecidableEq

/-- The client poller's state: the React state variables of `page.tsx`
that the processing path touches (`isProcessing`, `processingStatus`,
`progress`, `currentStep`) together with the durable results list the
page displays (the Convex `results` query backing `convertedResults`,
lines 39 and 76-83). -/
structure ClientState where
  isProcessing : Bool
  processingStatus : String
  progress : Nat
  currentStep : String
  durableResults : List FrontendResult
deriving Repr, DecidableEq

/-- Client state right after `handleStartProcessing` begins (`page.tsx`
lines 165-170): `isProcessing = true`, status `initializing`, progress 0,
step "Preparing request...". -/
def mkInitClient (durable : List FrontendResult) : ClientState :=
  { isProcessing := true
    processingStatus := "initializing"
    progress := 0
    currentStep := "Preparing request..."
    durableResults := durable }

/-- What the page shows in the results gallery: `convertedResults`, the
durable store's rows mapped to the frontend shape (`page.tsx` lines
76-83, 408-417).  No other list feeds the gallery. -/
def displayedResults (st : ClientState) : List FrontendResult :=
  st.durableResults

/-- The unconditional state updates performed on every status response
(`page.tsx` lines 207-209): status overwritten, step defaulted through
`|| "Processing..."`, and `setProgress(statusData.progress || 0)` — the
displayed progress becomes exactly the server value, 0 when absent. -/
def pollUpdate (st : ClientState) (resp : StatusResp) : ClientState :=
  { st with
    processingStatus := resp.status
    currentStep :=
      match resp.current_step with
      | none => "Processing..."
      | some s => if s == "" then "Processing..." else s
    progress := resp.progress.getD 0 }

/-- What one invocation of `pollStatus` does next. -/
inductive PollAction where
  | scheduleNext
  | stopped
  | aborted
deriving Repr, DecidableEq

/-- One network outcome for one `pollStatus` invocation: either a parsed
status body (paired with whether the `createResults` durable save
succeeds, used only on the completed branch), or the 10-second abort
firing (`controller.abort()` making the fetch reject). -/
inductive PollOutcome where
  | response (r : StatusResp) (saveOk : Bool)
  | netTimeout
deriving Repr, DecidableEq

/-- One invocation of `pollStatus` (`page.tsx` lines 195-236).
On a response: update state; on `completed`, try the durable save —
success appends the results to the durable list, failure merely logs —
then `setIsProcessing(false)` and return (`stopped`).  On `failed`, the
handler throws after the updates; the exception escapes the `setTimeout`
callback unhandled (`aborted`).  Otherwise `setTimeout(pollStatus, 2000)`
(`scheduleNext`).  On a network timeout the fetch rejects before any
state update, the exception escapes unhandled, and no further poll is
scheduled (`aborted`). -/
def pollStep (st : ClientState) : PollOutcome → ClientState × PollAction
  | .netTimeout => (st, .aborted)
  | .response resp saveOk =>
      let st1 := pollUpdate st resp
      if resp.status == "completed" then
        let st2 :=
          if saveOk then
            { st1 with
              durableResults := resp.results ++ st1.durableResults
              isProcessing := false }
          else
            { st1 with isProcessing := false }
        (st2, .stopped)
      else if resp.status == "failed" then
        (st1, .aborted)
      else
        (st1, .scheduleNext)

/-- Run the poll loop over a list of per-poll outcomes, stopping as soon
as an invocation does not schedule the next poll; an exhausted list means
the next poll is still scheduled. -/
def runPolls : ClientState → List PollOutcome → ClientState × PollAction
  | st, [] => (st, .scheduleNext)
  | st, o :: os =>
      match pollStep st o with
      | (st1, .scheduleNext) => runPolls st1 os
      | (st1, a) => (st1, a)

/-- Delay before the first poll: `setTimeout(pollStatus, 1000)`
(`page.tsx` line 239). -/
def initialPollDelayMs : Nat := 1000

/-- Delay between polls: `setTimeout(pollStatus, 2000)` (line 235). -/
def pollIntervalMs : Nat := 2000

/-- Per-request network timeout:
`setTimeout(() => statusController.abort(), 10000)` (line 197). -/
def statusRequestTimeoutMs : Nat := 10000

/-- Elapsed milliseconds since submission when poll number `k`
(0-indexed) runs: the first poll at 1000ms, each later one 2000ms after
its predecessor. -/
def pollTimeMs (k : Nat) : Nat :=
  initialPollDelayMs + pollIntervalMs * k

/-- A steady non-terminal server response, as produced while the job is
running. -/
def processingResp : StatusResp :=
  { status := "processing"
    current_step := some "Starting Python worker..."
    progress := some 5 }

/-- A poll outcome carrying `processingResp`. -/
def processingOutcome : PollOutcome :=
  .response processingResp true

/-- The two shapes of record the server ever writes: the initial
`processing` record (progress 5, no results, no error) and the completion
record (progress 100, exactly one result, no error). -/
def validShape (r : JobRecord) : Prop :=
  (r.status = .processing ∧ r.progress = 5 ∧ r.results = none ∧
     r.errorMessage = none) ∨
  (r.status = .completed ∧ r.progress = 100 ∧ r.errorMessage = none ∧
     ∃ res, r.results = some [res])

/-- A concrete valid submission used as a test vector: a three-byte
image, model `m1`, no parameter bundle. -/
def reqEx : SubmitRequest :=
  { image := some [1, 2, 3], modelId := some "m1", parameters := none }

/-- The client state after the first poll of a running job. -/
def stProc : ClientState :=
  { isProcessing := true
    processingStatus := "processing"
    progress := 5
    currentStep := "Starting Python worker..."
    durableResults := [] }

/-- A client state whose displayed progress has already reached 50. -/
def stAt50 : ClientState :=
  { isProcessing := true
    processingStatus := "processing"
    progress := 50
    currentStep := "Starting Python worker..."
    durableResults := [] }

/-- A server status response reporting progress 10. -/
def respAt10 : StatusResp :=
  { status := "processing"
    current_step := some "Starting Python worker..."
    progress := some 10 }

/-- A concrete generated result, as delivered by a completed job. -/
def resultEx : FrontendResult :=
  { id := "job_1"
    imageUrl := dataUri [1, 2, 3]
    seed := 42
    parameters := effectiveParams none
    createdAt := 200 }

/-- A completed status response carrying one result. -/
def completedRespEx : StatusResp :=
  { status := "completed"
    current_step := some "Processing complete"
    progress := some 100
    results := [resultEx] }

theorem storeGet_storeSet (s : Store) (k : String) (r : JobRecord) :
    storeGet (storeSet s k r) k = some r := by
  simp [storeGet, storeSet]

/-- C1: for every accepted submission whose worker exits non-zero, the
job record still transitions to `completed` with exactly one degraded
Result whose `imageUrl` is the input artifact re-encoded as a data URI,
and whose parameters take the documented defaults for every field the
request's bundle omits. -/
theorem nonzero_exit_degraded_completion
    (store : Store) (req : SubmitRequest) (jobId : String)
    (tCreate : Nat) (code : Int) (parsed : Option WorkerPayload)
    (seed tComplete : Nat)
    (hacc : missingFields req = false) (hcode : code ≠ 0) :
    ∃ rec r,
      storeGet (postProcess store req jobId tCreate code parsed seed tComplete).1 jobId
          = some rec ∧
      rec.status = JobStatus.completed ∧
      rec.progress = 100 ∧
      rec.results = some [r] ∧
      r.imageUrl = dataUri (req.image.getD []) ∧
      ((parsedBundle req.parameters).strength = none →
        r.parameters.strength = defaultStrength) ∧
      ((parsedBundle req.parameters).cfgScale = none →
        r.parameters.cfgScale = defaultCfgScale) ∧
      ((parsedBundle req.parameters).steps = none →
        r.parameters.steps = defaultSteps) ∧
      ((parsedBundle req.parameters).sampler = none →
        r.parameters.sampler = defaultSampler) := by
  refine ⟨completionRecord jobId (req.image.getD []) req.parameters code parsed seed tComplete,
    completionResult jobId (req.image.getD []) req.parameters code parsed seed tComplete,
    ?_, rfl, rfl, rfl, ?_, ?_, ?_, ?_, ?_⟩
  · simp [postProcess, hacc, storeGet_storeSet]
  · simp [completionResult, hcode]
  · intro h
    simp [completionResult, hcode, effectiveParams, h]
  · intro h
    simp [completionResult, hcode, effectiveParams, h]
  · intro h
    simp [completionResult, hcode, effectiveParams, h]
  · intro h
    simp [completionResult, hcode, effectiveParams, h]

/-- Witness for C1 at a concrete accepted submission with exit code 1. -/
theorem nonzero_exit_degraded_completion_witness :
    missingFields reqEx = false ∧ (1 : Int) ≠ 0 ∧
    ∃ rec r,
      storeGet (postProcess emptyStore reqEx "job_1" 100 1 none 42 200).1 "job_1"
          = some rec ∧
      rec.status = JobStatus.completed ∧
      rec.progress = 100 ∧
      rec.results = some [r] ∧
      r.imageUrl = dataUri (reqEx.image.getD []) ∧
      ((parsedBundle reqEx.parameters).strength = none →
        r.parameters.strength = defaultStrength) ∧
      ((parsedBundle reqEx.parameters).cfgScale = none →
        r.parameters.cfgScale = defaultCfgScale) ∧
      ((parsedBundle reqEx.parameters).steps = none →
        r.parameters.steps = defaultSteps) ∧
      ((parsedBundle reqEx.parameters).sampler = none →
        r.parameters.sampler = defaultSampler) :=
  ⟨by decide, by decide,
    nonzero_exit_degraded_completion emptyStore reqEx "job_1" 100 1 none 42 200
      (by decide) (by decide)⟩

/-- C2: for every job id absent from the store, `GET /status/[jobId]`
returns HTTP 200 with a synthetic `failed` view: progress 0 and the
"Job not found" step label — never a transport-level not-found error. -/
theorem status_unknown_id_synthetic_failed
    (store : Store) (jobId : String) (tNow : Nat)
    (h : storeGet store jobId = none) :
    statusGET store jobId tNow =
      (200,
       { job_id := jobId
         status := "failed"
         progress := 0
         current_step := some "Job not found" }) := by
  simp [statusGET, h]

/-- Witness for C2: the empty store knows no job id. -/
theorem status_unknown_id_synthetic_failed_witness :
    storeGet emptyStore "job_x" = none ∧
    statusGET emptyStore "job_x" 0 =
      (200,
       { job_id := "job_x"
         status := "failed"
         progress := 0
         current_step := some "Job not found" }) :=
  ⟨rfl, status_unknown_id_synthetic_failed emptyStore "job_x" 0 rfl⟩

/-- C6: a `POST /process` request missing `image` or `model_id` is
rejected with an immediate 400 carrying an `error` field; the store is
unchanged, no record is written and no job id is issued. -/
theorem missing_fields_rejected
    (store : Store) (req : SubmitRequest) (jobId : String)
    (tCreate : Nat) (code : Int) (parsed : Option WorkerPayload)
    (seed tComplete : Nat)
    (h : req.image = none ∨ req.modelId = none) :
    postProcess store req jobId tCreate code parsed seed tComplete =
      (store,
       [PostEvent.respond
          (PostResponse.badRequest "Missing required fields: image, model_id")],
       PostResponse.badRequest "Missing required fields: image, model_id") ∧
    writtenRecords
        (postProcess store req jobId tCreate code parsed seed tComplete).2.1 = [] ∧
    (postProcess store req jobId tCreate code parsed seed tComplete).2.2.httpCode
        = 400 := by
  have hm : missingFields req = true := by
    rcases h with h | h <;> simp [missingFields, h]
  refine ⟨?_, ?_, ?_⟩ <;>
    simp [postProcess, hm, writtenRecords, PostResponse.httpCode]

/-- Witness for C6: a request with `image` omitted. -/
theorem missing_fields_rejected_witness :
    ((⟨none, some "m1", none⟩ : SubmitRequest).image = none ∨
      (⟨none, some "m1", none⟩ : SubmitRequest).modelId = none) ∧
    postProcess emptyStore ⟨none, some "m1", none⟩ "job_1" 100 0 none 42 200 =
      (emptyStore,
       [PostEvent.respond
          (PostResponse.badRequest "Missing required fields: image, model_id")],
       PostResponse.badRequest "Missing required fields: image, model_id") ∧
    writtenRecords
        (postProcess emptyStore ⟨none, some "m1", none⟩ "job_1" 100 0 none 42 200).2.1
        = [] ∧
    (postProcess emptyStore ⟨none, some "m1", none⟩ "job_1" 100 0 none 42 200).2.2.httpCode
        = 400 := by
  refine ⟨Or.inl rfl, ?_⟩
  have h := missing_fields_rejected emptyStore ⟨none, some "m1", none⟩ "job_1"
    100 0 none 42 200 (Or.inl rfl)
  exact ⟨h.1, h.2.1, h.2.2⟩

/-- C3 counterexample: on a concrete accepted submission the trace
contains both the worker-close event and the response event, yet no
response precedes the worker close — the handler resolves its response
only inside the worker's `close` listener, so the caller receives the
job id after, not before, worker completion. -/
theorem post_response_after_worker_close_ce :
    PostEvent.workerClose 0
        ∈ (postProcess emptyStore reqEx "job_1" 100 0 none 42 200).2.1 ∧
    PostEvent.respond (PostResponse.ok "job_1" "pending")
        ∈ (postProcess emptyStore reqEx "job_1" 100 0 none 42 200).2.1 ∧
    respondBeforeClose
        (postProcess emptyStore reqEx "job_1" 100 0 none 42 200).2.1 = false := by
  decide

/-- C3 amended: for every accepted submission, the handler creates the
job record and persists the artifact before spawning the worker (so the
job is observable through the store while the worker runs), but the
HTTP response carrying the job id is produced only after the worker
process closes and the completion record is written. -/
theorem post_event_order
    (store : Store) (req : SubmitRequest) (jobId : String)
    (tCreate : Nat) (code : Int) (parsed : Option WorkerPayload)
    (seed tComplete : Nat)
    (hacc : missingFields req = false) :
    (postProcess store req jobId tCreate code parsed seed tComplete).2.1 =
      [PostEvent.createRecord jobId (initialJobRecord jobId tCreate),
       PostEvent.persistArtifact ("/tmp/processing/" ++ jobId ++ "_input.jpg"),
       PostEvent.spawnWorker "backend/process_image.py",
       PostEvent.workerClose code,
       PostEvent.updateRecord jobId
         (completionRecord jobId (req.image.getD []) req.parameters code parsed
           seed tComplete),
       PostEvent.respond (PostResponse.ok jobId "pending")] ∧
    (postProcess store req jobId tCreate code parsed seed tComplete).2.2 =
      PostResponse.ok jobId "pending" := by
  constructor <;> simp [postProcess, hacc]

/-- Witness for C3's amended statement at the concrete submission. -/
theorem post_event_order_witness :
    missingFields reqEx = false ∧
    (postProcess emptyStore reqEx "job_1" 100 0 none 42 200).2.1 =
      [PostEvent.createRecord "job_1" (initialJobRecord "job_1" 100),
       PostEvent.persistArtifact ("/tmp/processing/" ++ "job_1" ++ "_input.jpg"),
       PostEvent.spawnWorker "backend/process_image.py",
       PostEvent.workerClose 0,
       PostEvent.updateRecord "job_1"
         (completionRecord "job_1" (reqEx.image.getD []) reqEx.parameters 0 none
           42 200),
       PostEvent.respond (PostResponse.ok "job_1" "pending")] ∧
    (postProcess emptyStore reqEx "job_1" 100 0 none 42 200).2.2 =
      PostResponse.ok "job_1" "pending" :=
  ⟨by decide,
    (post_event_order emptyStore reqEx "job_1" 100 0 none 42 200 (by decide)).1,
    (post_event_order emptyStore reqEx "job_1" 100 0 none 42 200 (by decide)).2⟩

/-- C9 counterexample: a job created at time 100 and completed at time
200 ends up with `createdAt = 200` — the completing update writes a fresh
record whose `createdAt` is the completion clock, not the creation
clock. -/
theorem createdAt_overwritten_ce :
    (storeGet (postProcess emptyStore reqEx "job_1" 100 0 none 42 200).1
        "job_1").map JobRecord.createdAt = some 200 ∧
    (200 : Nat) ≠ 100 := by
  decide

/-- C9 amended: for every accepted submission, the completing update
overwrites `createdAt` with the completion timestamp: after the worker
closes, the stored record's `createdAt` equals the completion clock
reading, regardless of the creation clock reading. -/
theorem completion_resets_createdAt
    (store : Store) (req : SubmitRequest) (jobId : String)
    (tCreate : Nat) (code : Int) (parsed : Option WorkerPayload)
    (seed tComplete : Nat)
    (hacc : missingFields req = false) :
    (storeGet (postProcess store req jobId tCreate code parsed seed tComplete).1
        jobId).map JobRecord.createdAt = some tComplete := by
  simp [postProcess, hacc, storeGet_storeSet, completionRecord]

/-- Witness for C9's amended statement. -/
theorem completion_resets_createdAt_witness :
    missingFields reqEx = false ∧
    (storeGet (postProcess emptyStore reqEx "job_1" 100 0 none 42 200).1
        "job_1").map JobRecord.createdAt = some 200 :=
  ⟨by decide,
    completion_resets_createdAt emptyStore reqEx "job_1" 100 0 none 42 200
      (by decide)⟩

/-- C10: every record a `POST /process` invocation ever writes to the
store has one of exactly two shapes: `processing` with progress 5, no
results and no error message, or `completed` with progress 100, a
one-element results list and no error message; in particular no record is
ever stored as `failed`, `pending` or `queued`. -/
theorem store_writes_two_shapes
    (store : Store) (req : SubmitRequest) (jobId : String)
    (tCreate : Nat) (code : Int) (parsed : Option WorkerPayload)
    (seed tComplete : Nat) (r : JobRecord)
    (hr : r ∈ writtenRecords
        (postProcess store req jobId tCreate code parsed seed tComplete).2.1) :
    validShape r := by
  by_cases hm : missingFields req
  · simp [postProcess, hm, writtenRecords] at hr
  · simp [postProcess, hm, writtenRecords] at hr
    rcases hr with hr | hr
    · subst hr
      exact Or.inl ⟨rfl, rfl, rfl, rfl⟩
    · subst hr
      exact Or.inr ⟨rfl, rfl, rfl,
        ⟨completionResult jobId (req.image.getD []) req.parameters code parsed
          seed tComplete, rfl⟩⟩

/-- Witness for C10 at a concrete run: the completion record written by
the concrete submission has a valid shape. -/
theorem store_writes_two_shapes_witness :
    completionRecord "job_1" (reqEx.image.getD []) reqEx.parameters 0 none 42 200
        ∈ writtenRecords
            (postProcess emptyStore reqEx "job_1" 100 0 none 42 200).2.1 ∧
    validShape
      (completionRecord "job_1" (reqEx.image.getD []) reqEx.parameters 0 none 42
        200) := by
  have hmem : completionRecord "job_1" (reqEx.image.getD []) reqEx.parameters 0
      none 42 200
      ∈ writtenRecords
          (postProcess emptyStore reqEx "job_1" 100 0 none 42 200).2.1 := by
    simp [postProcess, writtenRecords, missingFields, reqEx]
  exact ⟨hmem,
    store_writes_two_shapes emptyStore reqEx "job_1" 100 0 none 42 200 _ hmem⟩

theorem pollStep_stProc :
    pollStep stProc processingOutcome = (stProc, PollAction.scheduleNext) := by
  decide

theorem runPolls_processing_fix (n : Nat) :
    runPolls stProc (List.replicate n processingOutcome) =
      (stProc, PollAction.scheduleNext) := by
  induction n with
  | zero => rfl
  | succ k ih =>
      rw [List.replicate_succ]
      simp [runPolls, pollStep_stProc]
      exact ih

/-- C4 counterexample: with the server steadily reporting `processing`,
the 14th poll runs 27000ms after submission — past the claimed 25-second
deadline — yet the poller is still in the non-terminal `processing` state
and schedules yet another poll; no forced `failed` transition exists. -/
theorem poller_past_deadline_ce :
    25000 < pollTimeMs 13 ∧
    (runPolls (mkInitClient []) (List.replicate 14 processingOutcome)).1.processingStatus
        = "processing" ∧
    (runPolls (mkInitClient []) (List.replicate 14 processingOutcome)).2
        = PollAction.scheduleNext ∧
    "processing" ≠ "completed" ∧ "processing" ≠ "failed" := by
  decide

/-- C4 amended: the client poller enforces no deadline at all.  However
many polls have elapsed — in particular once the elapsed time
`pollTimeMs n` exceeds 25000ms — a steady stream of non-terminal
`processing` responses leaves the poller in `processing` with the next
poll scheduled; the only client-initiated failure paths are thrown
exceptions, never a timer. -/
theorem poller_has_no_deadline (n : Nat) (h : 25000 < pollTimeMs n) :
    (runPolls (mkInitClient [])
        (List.replicate (n + 1) processingOutcome)).1.processingStatus
        = "processing" ∧
    (runPolls (mkInitClient []) (List.replicate (n + 1) processingOutcome)).2
        = PollAction.scheduleNext := by
  have h1 : pollStep (mkInitClient []) processingOutcome =
      (stProc, PollAction.scheduleNext) := by decide
  rw [List.replicate_succ]
  simp [runPolls, h1, runPolls_processing_fix n]
  rfl

/-- Witness for C4's amended statement at n = 13 (elapsed 27000ms). -/
theorem poller_has_no_deadline_witness :
    25000 < pollTimeMs 13 ∧
    (runPolls (mkInitClient [])
        (List.replicate (13 + 1) processingOutcome)).1.processingStatus
        = "processing" ∧
    (runPolls (mkInitClient []) (List.replicate (13 + 1) processingOutcome)).2
        = PollAction.scheduleNext :=
  ⟨by decide,
    (poller_has_no_deadline 13 (by decide)).1,
    (poller_has_no_deadline 13 (by decide)).2⟩

/-- C5 counterexample: a job completes with a non-empty result list, the
durable save fails, and the page's displayed results list stays empty —
the generated output is visible through neither the durable store nor any
client-local list (no such list exists). -/
theorem persistence_failure_drops_results_ce :
    displayedResults
        (pollStep (mkInitClient []) (PollOutcome.response completedRespEx false)).1
        = [] ∧
    completedRespEx.results ≠ [] ∧
    (pollStep (mkInitClient []) (PollOutcome.response completedRespEx false)).2
        = PollAction.stopped := by
  decide

/-- C5 amended: when a job reaches `completed` and the durable save
raises, the poller only logs the error and clears `isProcessing`; the
Results are dropped — the displayed list (fed solely by the durable
store) is unchanged, so the user sees the generated output only when the
durable save succeeds. -/
theorem persistence_failure_no_fallback
    (st : ClientState) (resp : StatusResp) (h : resp.status = "completed") :
    pollStep st (PollOutcome.response resp false) =
      ({ pollUpdate st resp with isProcessing := false }, PollAction.stopped) ∧
    displayedResults
        (pollStep st (PollOutcome.response resp false)).1
        = displayedResults st := by
  constructor <;> simp [pollStep, h, pollUpdate, displayedResults]

/-- Witness for C5's amended statement at the concrete completed
response. -/
theorem persistence_failure_no_fallback_witness :
    completedRespEx.status = "completed" ∧
    pollStep (mkInitClient []) (PollOutcome.response completedRespEx false) =
      ({ pollUpdate (mkInitClient []) completedRespEx with isProcessing := false },
       PollAction.stopped) ∧
    displayedResults
        (pollStep (mkInitClient []) (PollOutcome.response completedRespEx false)).1
        = displayedResults (mkInitClient []) :=
  ⟨rfl,
    (persistence_failure_no_fallback (mkInitClient []) completedRespEx rfl).1,
    (persistence_failure_no_fallback (mkInitClient []) completedRespEx rfl).2⟩

/-- C7 counterexample: with the displayed progress already at 50, a
server report of 10 drags the display down to 10, not max(50, 10) = 50 —
there is no max-merge (and no synthetic animation feeding a local
value). -/
theorem progress_regression_ce :
    (pollUpdate stAt50 respAt10).progress = 10 ∧
    max 50 10 = 50 ∧ (10 : Nat) ≠ 50 := by
  decide

/-- C7 amended: after each status response the displayed progress is set
to exactly the server-reported value (0 when the field is absent), and
the displayed status to the server-reported status; no local animation
exists and a lower server report regresses the displayed value. -/
theorem progress_follows_server (st : ClientState) (resp : StatusResp) :
    (pollUpdate st resp).progress = resp.progress.getD 0 ∧
    (pollUpdate st resp).processingStatus = resp.status := by
  constructor <;> simp [pollUpdate]

/-- C8 counterexample: when the 10-second network timeout aborts a poll,
that invocation ends with the `aborted` action — the state is untouched
but no next poll is scheduled, contradicting "the next scheduled poll
attempt still proceeds". -/
theorem net_timeout_aborts_ce :
    pollStep (mkInitClient []) PollOutcome.netTimeout =
      (mkInitClient [], PollAction.aborted) ∧
    PollAction.aborted ≠ PollAction.scheduleNext := by
  decide

/-- C8 amended: each status request carries its own 10-second network
timeout, and a timeout leaves the poller state unchanged — but the
rejected fetch escapes the timer callback unhandled, so the poll loop
aborts: no next attempt is scheduled (and no 25-second deadline exists to
terminate the job either). -/
theorem net_timeout_behavior (st : ClientState) :
    statusRequestTimeoutMs = 10000 ∧
    pollStep st PollOutcome.netTimeout = (st, PollAction.aborted) :=
  ⟨rfl, rfl⟩
